import Mathlib

/-!
Verification model of the go-atlassian service-method layer.

The Go source consists of service methods that validate required arguments,
build an endpoint (path plus `url.Values`-encoded query string), delegate to a
`Connector` (`NewRequest` then `Call`), and return a typed result, a response
envelope and an error.  Some methods are additionally decorated with an
OpenTelemetry span.  Every method below is a direct translation of one Go
function; the connector is an abstract pair of functions, and each method also
returns the ordered list of observable events it performed (span operations and
connector invocations), so that properties about tracing and about the absence
of network interaction can be stated.
-/

namespace GoAtlassian

/-- Errors of the model: the precondition sentinels declared in
`pkg/infra/models` plus errors originating in the connector.  The sentinel
message strings live outside the provided sources; their exact text is not
load-bearing for any property (they only feed span status descriptions). -/
inductive GoError where
  | noAdminOrganization
  | noAdminAccountID
  | noContentID
  | noJQL
  | connectorFailure (msg : String)
deriving DecidableEq, Repr

/-- The `Error()` message of a `GoError` value. -/
def GoError.errorText : GoError → String
  | .noAdminOrganization => "admin: no organization id set"
  | .noAdminAccountID => "admin: no account id set"
  | .noContentID => "confluence: no content id set"
  | .noJQL => "jira: no jql expression set"
  | .connectorFailure m => m

/-- Span status, mirroring `go.opentelemetry.io/otel/codes` plus the
description passed to `span.SetStatus`. -/
inductive SpanStatus where
  | unset
  | error (description : String)
  | ok (description : String)
deriving DecidableEq, Repr

/-- Whether a span status is the error status. -/
def SpanStatus.isError : SpanStatus → Bool
  | .error _ => true
  | _ => false

/-- A span attribute (string- or integer-valued), as set via
`attribute.String` / `attribute.Int`. -/
inductive Attr where
  | str (key value : String)
  | int (key : String) (value : Int)
deriving DecidableEq, Repr

/-- The request payload handed to `Connector.NewRequest`.  GET-style methods
pass an untyped nil; `Checks`, `Create` and `Update` pass a (possibly nil)
typed pointer, modelled as an `Option` over an opaque token; `Post` passes an
anonymous struct built from its arguments. -/
inductive Payload where
  | none
  | issueSearchCheck (p : Option Nat)
  | createTemplate (p : Option Nat)
  | updateTemplate (p : Option Nat)
  | searchJQL (jql : String) (nextPageToken : Option String) (maxResults : Int)
      (fields expand properties : List String) (fieldsByKey failFast : Bool)
      (reconcileIssues : List Int)
deriving DecidableEq, Repr

/-- The request value produced by `Connector.NewRequest`; service methods treat
it as opaque and only hand it to `Connector.Call`. -/
structure RequestDescriptor where
  id : Nat
deriving DecidableEq, Repr

/-- The response envelope (`model.ResponseScheme`); only the status code is
relevant to the modelled layer. -/
structure ResponseScheme where
  code : Int
deriving DecidableEq, Repr

/-- Outcome of `Connector.Call`: an optional envelope, an optional error, and
the value decoded into the caller-supplied target (an opaque token, meaningful
when the error is absent). -/
structure CallResult where
  res : Option ResponseScheme
  err : Option GoError
  decoded : Nat
deriving DecidableEq, Repr

/-- The connector capability consumed by every service method.  The per-call
context carries no information relevant to the modelled layer (cancellation is
subsumed by `newRequest` failure behaviours), so it is omitted. -/
structure Connector where
  newRequest : String → String → String → Payload → Except GoError RequestDescriptor
  call : RequestDescriptor → CallResult

/-- Observable events of one service-method invocation, in program order. -/
inductive Event where
  | spanStart (name : String)
  | spanSetStatus (status : SpanStatus)
  | spanRecordError (err : GoError)
  | spanSetAttributes (attrs : List Attr)
  | spanEnd
  | connNewRequest (method endpoint contentType : String) (payload : Payload)
  | connCall (request : RequestDescriptor)
deriving DecidableEq, Repr

/-- Whether an event is a connector interaction. -/
def Event.isConn : Event → Bool
  | .connNewRequest _ _ _ _ => true
  | .connCall _ => true
  | _ => false

/-- Whether an event is a span start. -/
def Event.isSpanStart : Event → Bool
  | .spanStart _ => true
  | _ => false

/-- Whether an event is a span end. -/
def Event.isSpanEnd : Event → Bool
  | .spanEnd => true
  | _ => false

/-- Whether an event is a `NewRequest` invocation. -/
def Event.isNewRequestEv : Event → Bool
  | .connNewRequest _ _ _ _ => true
  | _ => false

/-- The last `spanSetStatus` recorded in an event list, if any. -/
def lastSetStatus : List Event → Option SpanStatus
  | [] => Option.none
  | Event.spanSetStatus s :: rest =>
    match lastSetStatus rest with
    | Option.none => some s
    | some s2 => some s2
  | _ :: rest => lastSetStatus rest

/-! ### `net/url` query encoding, as used by the query-building steps

Go's `url.Values` is a map from keys to value lists; `Add` appends a value to
a key's list, and `Encode` emits `key=value` pieces with the keys in sorted
(byte-lexicographic) order, percent-escaping both keys and values per byte of
their UTF-8 representation (unreserved bytes kept, space as `+`, everything
else as uppercase `%XX`). -/

/-- UTF-8 byte sequence of a character. -/
def utf8Bytes (c : Char) : List Nat :=
  let n := c.toNat
  if n < 128 then [n]
  else if n < 2048 then [192 + n / 64, 128 + n % 64]
  else if n < 65536 then [224 + n / 4096, 128 + (n / 64) % 64, 128 + n % 64]
  else [240 + n / 262144, 128 + (n / 4096) % 64, 128 + (n / 64) % 64, 128 + n % 64]

/-- UTF-8 bytes of a string. -/
def strBytes (s : String) : List Nat :=
  s.data.flatMap utf8Bytes

/-- Bytes Go leaves unescaped in a query component: ASCII letters, digits and
`-`, `_`, `.`, `~`. -/
def isUnreservedByte (b : Nat) : Bool :=
  decide ((65 ≤ b ∧ b ≤ 90) ∨ (97 ≤ b ∧ b ≤ 122) ∨ (48 ≤ b ∧ b ≤ 57) ∨
    b = 45 ∨ b = 95 ∨ b = 46 ∨ b = 126)

/-- Uppercase hexadecimal digit for `n < 16`. -/
def hexDigitUpper (n : Nat) : Char :=
  if n < 10 then Char.ofNat (48 + n) else Char.ofNat (55 + n)

/-- Escaping of one byte in a query component (`url.QueryEscape`). -/
def escapeByte (b : Nat) : String :=
  if isUnreservedByte b then String.singleton (Char.ofNat b)
  else if b = 32 then "+"
  else "%" ++ String.singleton (hexDigitUpper (b / 16)) ++
    String.singleton (hexDigitUpper (b % 16))

/-- Model of `url.QueryEscape`. -/
def queryEscape (s : String) : String :=
  String.join ((strBytes s).map escapeByte)

/-- Byte-lexicographic order on byte lists, as used by `sort.Strings`. -/
def lexLe : List Nat → List Nat → Bool
  | [], _ => true
  | _ :: _, [] => false
  | a :: as, b :: bs => if a < b then true else if b < a then false else lexLe as bs

/-- Byte-lexicographic order on strings. -/
def strLeB (a b : String) : Bool :=
  lexLe (strBytes a) (strBytes b)

/-- Insertion into a sorted key list. -/
def insertKey (k : String) : List String → List String
  | [] => [k]
  | x :: xs => if strLeB k x then k :: x :: xs else x :: insertKey k xs

/-- Insertion sort of the key list (`sort.Strings`; the keys of a `url.Values`
built by `Add` are pairwise distinct, so any correct sort agrees). -/
def sortKeys : List String → List String
  | [] => []
  | k :: ks => insertKey k (sortKeys ks)

/-- Model of `url.Values`: association list from keys to their value lists. -/
abbrev Values : Type := List (String × List String)

/-- Model of `Values.Add`: append a value to a key's list, creating the key if absent. -/
def valuesAdd (v : Values) (key val : String) : Values :=
  match v with
  | [] => [(key, [val])]
  | (k, vs) :: rest =>
    if k = key then (k, vs ++ [val]) :: rest else (k, vs) :: valuesAdd rest key val

/-- The value list stored under a key (empty when the key is absent). -/
def valuesGet (v : Values) (key : String) : List String :=
  match v with
  | [] => []
  | (k, vs) :: rest => if k = key then vs else valuesGet rest key

/-- The keys of a `Values`, in insertion order. -/
def valuesKeys (v : Values) : List String :=
  v.map Prod.fst

/-- The `key=value` pieces emitted by `Values.Encode`, keys in sorted order. -/
def encodePieces (v : Values) : List String :=
  (sortKeys (valuesKeys v)).flatMap fun k =>
    (valuesGet v k).map fun val => queryEscape k ++ "=" ++ queryEscape val

/-- Model of `url.Values.Encode`. -/
def valuesEncode (v : Values) : String :=
  String.intercalate "&" (encodePieces v)

/-- Model of `strconv.FormatBool`. -/
def formatBool (b : Bool) : String :=
  if b then "true" else "false"

/-- Model of `fmt.Sprint` of a Go `[]int`: elements space-separated inside brackets. -/
def goSprintIntList (xs : List Int) : String :=
  "[" ++ String.intercalate " " (xs.map toString) ++ "]"

/-- Model of `strings.Fields` (the inputs it is applied to contain only single spaces,
never other whitespace). -/
def goFields (s : String) : List String :=
  (s.splitOn " ").filter fun t => t ≠ ""

/-- Whether `pat` is a prefix of `s` (on character lists). -/
def hasPrefixCL : List Char → List Char → Bool
  | [], _ => true
  | _ :: _, [] => false
  | p :: ps, c :: cs => p == c && hasPrefixCL ps cs

/-- Whether `pat` occurs inside `s` (on character lists). -/
def occursCL (pat : List Char) : List Char → Bool
  | [] => hasPrefixCL pat []
  | c :: cs => hasPrefixCL pat (c :: cs) || occursCL pat cs

/-- Whether `pat` occurs as a substring of `s`. -/
def strContainsSub (s pat : String) : Bool :=
  occursCL pat.data s.data

/-! ### `net/http.StatusText` and the tracing helpers of the assets module -/

/-- Model of `http.StatusText`: the standard reason phrase for a status code, `""` for
unregistered codes. -/
def statusText (code : Int) : String :=
  match code with
  | 100 => "Continue"
  | 101 => "Switching Protocols"
  | 102 => "Processing"
  | 103 => "Early Hints"
  | 200 => "OK"
  | 201 => "Created"
  | 202 => "Accepted"
  | 203 => "Non-Authoritative Information"
  | 204 => "No Content"
  | 205 => "Reset Content"
  | 206 => "Partial Content"
  | 207 => "Multi-Status"
  | 208 => "Already Reported"
  | 226 => "IM Used"
  | 300 => "Multiple Choices"
  | 301 => "Moved Permanently"
  | 302 => "Found"
  | 303 => "See Other"
  | 304 => "Not Modified"
  | 305 => "Use Proxy"
  | 307 => "Temporary Redirect"
  | 308 => "Permanent Redirect"
  | 400 => "Bad Request"
  | 401 => "Unauthorized"
  | 402 => "Payment Required"
  | 403 => "Forbidden"
  | 404 => "Not Found"
  | 405 => "Method Not Allowed"
  | 406 => "Not Acceptable"
  | 407 => "Proxy Authentication Required"
  | 408 => "Request Timeout"
  | 409 => "Conflict"
  | 410 => "Gone"
  | 411 => "Length Required"
  | 412 => "Precondition Failed"
  | 413 => "Request Entity Too Large"
  | 414 => "Request URI Too Long"
  | 415 => "Unsupported Media Type"
  | 416 => "Requested Range Not Satisfiable"
  | 417 => "Expectation Failed"
  | 418 => "I\x27m a teapot"
  | 421 => "Misdirected Request"
  | 422 => "Unprocessable Entity"
  | 423 => "Locked"
  | 424 => "Failed Dependency"
  | 425 => "Too Early"
  | 426 => "Upgrade Required"
  | 428 => "Precondition Required"
  | 429 => "Too Many Requests"
  | 431 => "Request Header Fields Too Large"
  | 451 => "Unavailable For Legal Reasons"
  | 500 => "Internal Server Error"
  | 501 => "Not Implemented"
  | 502 => "Bad Gateway"
  | 503 => "Service Unavailable"
  | 504 => "Gateway Timeout"
  | 505 => "HTTP Version Not Supported"
  | 506 => "Variant Also Negotiates"
  | 507 => "Insufficient Storage"
  | 508 => "Loop Detected"
  | 510 => "Not Extended"
  | 511 => "Network Authentication Required"
  | _ => ""

/-- A span, as manipulated by the assets-module tracing helpers: accumulated
attributes, current status, recorded errors and the ended flag. -/
structure Span where
  name : String
  attrs : List Attr
  status : SpanStatus
  recorded : List GoError
  ended : Bool
deriving DecidableEq, Repr

/-- The `TracerName` constant of the assets module. -/
def TracerName : String := "github.com/ctreminiom/go-atlassian/v2/assets"

/-- Model of `StartSpan`: a fresh span with the given name. -/
def startSpan (spanName : String) : Span :=
  { name := spanName, attrs := [], status := .unset, recorded := [], ended := false }

/-- Model of `SetSpanAttributes`: attach the HTTP request attributes. -/
def setSpanAttributes (span : Span) (method endpoint : String) : Span :=
  { span with attrs := span.attrs ++
      [Attr.str "http.method" method, Attr.str "http.url" endpoint,
       Attr.str "component" "go-atlassian", Attr.str "module" "assets"] }

/-- Model of `SetSpanError`: record an error and mark the status as error; a nil error
(`Option.none`) leaves the span untouched. -/
def setSpanError (span : Span) (err : Option GoError) : Span :=
  match err with
  | some e =>
    { span with status := .error e.errorText, recorded := span.recorded ++ [e] }
  | Option.none => span

/-- Model of `SetSpanResponse`: attach the status-code attribute, then classify the
status code. -/
def setSpanResponse (span : Span) (statusCode : Int) : Span :=
  let span := { span with attrs := span.attrs ++ [Attr.int "http.status_code" statusCode] }
  if statusCode ≥ 400 then { span with status := .error (statusText statusCode) }
  else { span with status := .ok "" }

/-- Model of `FinishSpan`: end the span. -/
def finishSpan (span : Span) : Span :=
  { span with ended := true }

/-! ### Typed result schemas (opaque decoded payloads) and method outcomes -/

/-- Model of `model.UserProductAccessScheme`. -/
structure UserProductAccessScheme where
  decoded : Nat
deriving DecidableEq, Repr

/-- Model of `model.GenericActionSuccessScheme`. -/
structure GenericActionSuccessScheme where
  decoded : Nat
deriving DecidableEq, Repr

/-- Model of `model.ContentPageScheme`. -/
structure ContentPageScheme where
  decoded : Nat
deriving DecidableEq, Repr

/-- Model of `model.IssueSearchScheme`. -/
structure IssueSearchScheme where
  decoded : Nat
deriving DecidableEq, Repr

/-- Model of `model.IssueMatchesPageScheme`. -/
structure IssueMatchesPageScheme where
  decoded : Nat
deriving DecidableEq, Repr

/-- Model of `models.ContentTemplateScheme`. -/
structure ContentTemplateScheme where
  decoded : Nat
deriving DecidableEq, Repr

/-- Outcome of a service method returning a typed result, a response envelope
and an error, together with the events the invocation performed. -/
structure MethodOut (α : Type) where
  result : Option α
  res : Option ResponseScheme
  err : Option GoError
  events : List Event
deriving DecidableEq, Repr

/-- Outcome of a service method returning only a response envelope and an
error (such as `Remove`). -/
structure SimpleOut where
  res : Option ResponseScheme
  err : Option GoError
  events : List Event
deriving DecidableEq, Repr

/-- Steps 4 to 6 shared by every undecorated service method: delegate to
`NewRequest` then `Call` with a freshly allocated target, propagating errors
unchanged and otherwise returning the decoded result and the envelope. -/
def runRequest {α : Type} (mk : Nat → α) (conn : Connector)
    (method endpoint contentType : String) (payload : Payload) : MethodOut α :=
  let ev0 := [Event.connNewRequest method endpoint contentType payload]
  match conn.newRequest method endpoint contentType payload with
  | .error e => { result := Option.none, res := Option.none, err := some e, events := ev0 }
  | .ok req =>
    let out := conn.call req
    let ev1 := ev0 ++ [Event.connCall req]
    match out.err with
    | some e => { result := Option.none, res := out.res, err := some e, events := ev1 }
    | Option.none =>
      { result := some (mk out.decoded), res := out.res, err := Option.none, events := ev1 }

/-! ### admin: organization directory (`organization_directory_impl.go`) -/

/-- Endpoint of `Activity`. -/
def activityEndpoint (organizationID accountID : String) : String :=
  "admin/v1/orgs/" ++ organizationID ++ "/directory/users/" ++ accountID ++
    "/last-active-dates"

/-- Endpoint of `Remove`. -/
def removeEndpoint (organizationID accountID : String) : String :=
  "admin/v1/orgs/" ++ organizationID ++ "/directory/users/" ++ accountID

/-- Endpoint of `Suspend`. -/
def suspendEndpoint (organizationID accountID : String) : String :=
  "admin/v1/orgs/" ++ organizationID ++ "/directory/users/" ++ accountID ++
    "/suspend-access"

/-- Endpoint of `Restore`. -/
def restoreEndpoint (organizationID accountID : String) : String :=
  "admin/v1/orgs/" ++ organizationID ++ "/directory/users/" ++ accountID ++
    "/restore-access"

/-- Model of `internalOrganizationDirectoryServiceImpl.Activity` (tracing-decorated). -/
def activity (conn : Connector) (organizationID accountID : String) :
    MethodOut UserProductAccessScheme :=
  let ev0 := [Event.spanStart "admin.organization.directory.activity"]
  if organizationID = "" then
    { result := Option.none, res := Option.none, err := some .noAdminOrganization,
      events := ev0 ++
        [Event.spanSetStatus (.error (GoError.errorText .noAdminOrganization)),
         Event.spanRecordError .noAdminOrganization, Event.spanEnd] }
  else if accountID = "" then
    { result := Option.none, res := Option.none, err := some .noAdminAccountID,
      events := ev0 ++
        [Event.spanSetStatus (.error (GoError.errorText .noAdminAccountID)),
         Event.spanRecordError .noAdminAccountID, Event.spanEnd] }
  else
    let endpoint := activityEndpoint organizationID accountID
    let ev1 := ev0 ++ [Event.spanSetAttributes
      [Attr.str "http.method" "GET", Attr.str "http.url" endpoint,
       Attr.str "component" "go-atlassian", Attr.str "module" "admin",
       Attr.str "operation" "organization.directory.activity"]]
    let ev2 := ev1 ++ [Event.connNewRequest "GET" endpoint "" .none]
    match conn.newRequest "GET" endpoint "" .none with
    | .error e =>
      { result := Option.none, res := Option.none, err := some e,
        events := ev2 ++ [Event.spanSetStatus (.error e.errorText),
          Event.spanRecordError e, Event.spanEnd] }
    | .ok req =>
      let out := conn.call req
      let ev3 := ev2 ++ [Event.connCall req]
      match out.err with
      | some e =>
        { result := Option.none, res := out.res, err := some e,
          events := ev3 ++ [Event.spanSetStatus (.error e.errorText),
            Event.spanRecordError e, Event.spanEnd] }
      | Option.none =>
        let ev4 := ev3 ++
          (match out.res with
          | some r =>
            [Event.spanSetAttributes [Attr.int "http.status_code" r.code],
             Event.spanSetStatus
               (if r.code ≥ 400 then .error (statusText r.code) else .ok "")]
          | Option.none => [])
        { result := some ⟨out.decoded⟩, res := out.res, err := Option.none,
          events := ev4 ++ [Event.spanEnd] }

/-- Model of `internalOrganizationDirectoryServiceImpl.Activity` with the tracing
decoration stripped: the same validation, endpoint construction and connector
delegation, following the shape the undecorated methods of the same file use. -/
def activityPlain (conn : Connector) (organizationID accountID : String) :
    Option UserProductAccessScheme × Option ResponseScheme × Option GoError :=
  if organizationID = "" then (Option.none, Option.none, some .noAdminOrganization)
  else if accountID = "" then (Option.none, Option.none, some .noAdminAccountID)
  else
    match conn.newRequest "GET" (activityEndpoint organizationID accountID) "" .none with
    | .error e => (Option.none, Option.none, some e)
    | .ok req =>
      let out := conn.call req
      match out.err with
      | some e => (Option.none, out.res, some e)
      | Option.none => (some ⟨out.decoded⟩, out.res, Option.none)

/-- Model of `internalOrganizationDirectoryServiceImpl.Remove` (tracing-decorated; the
call target is nil, so there is no typed result). -/
def remove (conn : Connector) (organizationID accountID : String) : SimpleOut :=
  let ev0 := [Event.spanStart "admin.organization.directory.remove"]
  if organizationID = "" then
    { res := Option.none, err := some .noAdminOrganization,
      events := ev0 ++
        [Event.spanSetStatus (.error (GoError.errorText .noAdminOrganization)),
         Event.spanRecordError .noAdminOrganization, Event.spanEnd] }
  else if accountID = "" then
    { res := Option.none, err := some .noAdminAccountID,
      events := ev0 ++
        [Event.spanSetStatus (.error (GoError.errorText .noAdminAccountID)),
         Event.spanRecordError .noAdminAccountID, Event.spanEnd] }
  else
    let endpoint := removeEndpoint organizationID accountID
    let ev1 := ev0 ++ [Event.spanSetAttributes
      [Attr.str "http.method" "DELETE", Attr.str "http.url" endpoint,
       Attr.str "component" "go-atlassian", Attr.str "module" "admin",
       Attr.str "operation" "organization.directory.remove"]]
    let ev2 := ev1 ++ [Event.connNewRequest "DELETE" endpoint "" .none]
    match conn.newRequest "DELETE" endpoint "" .none with
    | .error e =>
      { res := Option.none, err := some e,
        events := ev2 ++ [Event.spanSetStatus (.error e.errorText),
          Event.spanRecordError e, Event.spanEnd] }
    | .ok req =>
      let out := conn.call req
      let ev3 := ev2 ++ [Event.connCall req]
      match out.err with
      | some e =>
        { res := out.res, err := some e,
          events := ev3 ++ [Event.spanSetStatus (.error e.errorText),
            Event.spanRecordError e, Event.spanEnd] }
      | Option.none =>
        let ev4 := ev3 ++
          (match out.res with
          | some r =>
            [Event.spanSetAttributes [Attr.int "http.status_code" r.code],
             Event.spanSetStatus
               (if r.code ≥ 400 then .error (statusText r.code) else .ok "")]
          | Option.none => [])
        { res := out.res, err := Option.none, events := ev4 ++ [Event.spanEnd] }

/-- Model of `internalOrganizationDirectoryServiceImpl.Suspend` (undecorated). -/
def suspend (conn : Connector) (organizationID accountID : String) :
    MethodOut GenericActionSuccessScheme :=
  if organizationID = "" then
    { result := Option.none, res := Option.none, err := some .noAdminOrganization,
      events := [] }
  else if accountID = "" then
    { result := Option.none, res := Option.none, err := some .noAdminAccountID,
      events := [] }
  else
    runRequest GenericActionSuccessScheme.mk conn "POST"
      (suspendEndpoint organizationID accountID) "" .none

/-- Model of `internalOrganizationDirectoryServiceImpl.Restore` (undecorated). -/
def restore (conn : Connector) (organizationID accountID : String) :
    MethodOut GenericActionSuccessScheme :=
  if organizationID = "" then
    { result := Option.none, res := Option.none, err := some .noAdminOrganization,
      events := [] }
  else if accountID = "" then
    { result := Option.none, res := Option.none, err := some .noAdminAccountID,
      events := [] }
  else
    runRequest GenericActionSuccessScheme.mk conn "POST"
      (restoreEndpoint organizationID accountID) "" .none

/-! ### confluence: content comments (`comment_content_impl.go`) -/

/-- Query of `internalCommentImpl.Gets`: `start` and `limit` always, `expand`
and `location` only when non-empty, comma-joined. -/
def commentGetsQuery (expand location : List String) (startAt maxResults : Int) :
    Values :=
  let q : Values := []
  let q := valuesAdd q "start" (toString startAt)
  let q := valuesAdd q "limit" (toString maxResults)
  let q := if expand.length ≠ 0 then valuesAdd q "expand" (String.intercalate "," expand) else q
  let q := if location.length ≠ 0 then valuesAdd q "location" (String.intercalate "," location) else q
  q

/-- Endpoint of `internalCommentImpl.Gets`. -/
def commentGetsEndpoint (contentID : String) (expand location : List String)
    (startAt maxResults : Int) : String :=
  "wiki/rest/api/content/" ++ contentID ++ "/child/comment?" ++
    valuesEncode (commentGetsQuery expand location startAt maxResults)

/-- Model of `internalCommentImpl.Gets` (tracing-decorated). -/
def commentGets (conn : Connector) (contentID : String)
    (expand location : List String) (startAt maxResults : Int) :
    MethodOut ContentPageScheme :=
  let ev0 := [Event.spanStart "confluence.content.comment.gets"]
  if contentID = "" then
    { result := Option.none, res := Option.none, err := some .noContentID,
      events := ev0 ++
        [Event.spanSetStatus (.error (GoError.errorText .noContentID)),
         Event.spanRecordError .noContentID, Event.spanEnd] }
  else
    let endpoint := commentGetsEndpoint contentID expand location startAt maxResults
    let ev1 := ev0 ++ [Event.spanSetAttributes
      [Attr.str "http.method" "GET", Attr.str "http.url" endpoint,
       Attr.str "component" "go-atlassian", Attr.str "module" "confluence",
       Attr.str "operation" "content.comment.gets",
       Attr.str "content.id" contentID,
       Attr.int "pagination.start" startAt,
       Attr.int "pagination.limit" maxResults]]
    let ev2 := ev1 ++ [Event.connNewRequest "GET" endpoint "" .none]
    match conn.newRequest "GET" endpoint "" .none with
    | .error e =>
      { result := Option.none, res := Option.none, err := some e,
        events := ev2 ++ [Event.spanSetStatus (.error e.errorText),
          Event.spanRecordError e, Event.spanEnd] }
    | .ok req =>
      let out := conn.call req
      let ev3 := ev2 ++ [Event.connCall req]
      match out.err with
      | some e =>
        { result := Option.none, res := out.res, err := some e,
          events := ev3 ++ [Event.spanSetStatus (.error e.errorText),
            Event.spanRecordError e, Event.spanEnd] }
      | Option.none =>
        let ev4 := ev3 ++
          (match out.res with
          | some r =>
            [Event.spanSetAttributes [Attr.int "http.status_code" r.code],
             Event.spanSetStatus
               (if r.code ≥ 400 then .error (statusText r.code) else .ok "")]
          | Option.none => [])
        { result := some ⟨out.decoded⟩, res := out.res, err := Option.none,
          events := ev4 ++ [Event.spanEnd] }

/-! ### jira: JQL search (`search_impl_adf.go`) -/

/-- The `reconcileIssues` query value:
`strings.Join(strings.Fields(fmt.Sprint(reconcileIssues)), ",")`. -/
def reconcileParam (xs : List Int) : String :=
  String.intercalate "," (goFields (goSprintIntList xs))

/-- Query of `internalSearchADFImpl.Get`: `jql`, `maxResults`, `fieldsByKey`
and `failFast` always, `nextPageToken` when non-nil, the slice parameters only
when non-empty. -/
def searchGetValues (jql : String) (nextPageToken : Option String)
    (maxResults : Int) (fields expand properties : List String)
    (fieldsByKey failFast : Bool) (reconcileIssues : List Int) : Values :=
  let p : Values := []
  let p := valuesAdd p "jql" jql
  let p := match nextPageToken with
    | some t => valuesAdd p "nextPageToken" t
    | Option.none => p
  let p := valuesAdd p "maxResults" (toString maxResults)
  let p := valuesAdd p "fieldsByKey" (formatBool fieldsByKey)
  let p := valuesAdd p "failFast" (formatBool failFast)
  let p := if expand.length ≠ 0 then valuesAdd p "expand" (String.intercalate "," expand) else p
  let p := if fields.length ≠ 0 then valuesAdd p "fields" (String.intercalate "," fields) else p
  let p := if properties.length ≠ 0 then valuesAdd p "properties" (String.intercalate "," properties) else p
  let p := if reconcileIssues.length ≠ 0 then valuesAdd p "reconcileIssues" (reconcileParam reconcileIssues) else p
  p

/-- Endpoint of `internalSearchADFImpl.Get`. -/
def searchGetEndpoint (version jql : String) (nextPageToken : Option String)
    (maxResults : Int) (fields expand properties : List String)
    (fieldsByKey failFast : Bool) (reconcileIssues : List Int) : String :=
  "rest/api/" ++ version ++ "/search/jql?" ++
    valuesEncode (searchGetValues jql nextPageToken maxResults fields expand
      properties fieldsByKey failFast reconcileIssues)

/-- Model of `internalSearchADFImpl.Get` (undecorated). -/
def searchGet (conn : Connector) (version jql : String)
    (nextPageToken : Option String) (maxResults : Int)
    (fields expand properties : List String) (fieldsByKey failFast : Bool)
    (reconcileIssues : List Int) : MethodOut IssueSearchScheme :=
  if jql = "" then
    { result := Option.none, res := Option.none, err := some .noJQL, events := [] }
  else
    runRequest IssueSearchScheme.mk conn "GET"
      (searchGetEndpoint version jql nextPageToken maxResults fields expand
        properties fieldsByKey failFast reconcileIssues) "" .none

/-- Model of `internalSearchADFImpl.Checks` (undecorated, no validation). -/
def searchChecks (conn : Connector) (version : String) (payload : Option Nat) :
    MethodOut IssueMatchesPageScheme :=
  runRequest IssueMatchesPageScheme.mk conn "POST"
    ("rest/api/" ++ version ++ "/jql/match") "" (.issueSearchCheck payload)

/-- Model of `internalSearchADFImpl.Post` (undecorated, no validation; the body payload
is an anonymous struct carrying all arguments). -/
def searchPost (conn : Connector) (version jql : String)
    (nextPageToken : Option String) (maxResults : Int)
    (fields expand properties : List String) (fieldsByKey failFast : Bool)
    (reconcileIssues : List Int) : MethodOut IssueSearchScheme :=
  runRequest IssueSearchScheme.mk conn "POST"
    ("rest/api/" ++ version ++ "/search/jql") ""
    (.searchJQL jql nextPageToken maxResults fields expand properties
      fieldsByKey failFast reconcileIssues)

/-! ### confluence: templates (`template_impl.go`) -/

/-- Model of `internalTemplateImpl.Create` (undecorated, no validation). -/
def templateCreate (conn : Connector) (payload : Option Nat) :
    MethodOut ContentTemplateScheme :=
  runRequest ContentTemplateScheme.mk conn "POST" "/wiki/rest/api/template" ""
    (.createTemplate payload)

/-- Model of `internalTemplateImpl.Update` (undecorated, no validation). -/
def templateUpdate (conn : Connector) (payload : Option Nat) :
    MethodOut ContentTemplateScheme :=
  runRequest ContentTemplateScheme.mk conn "PUT" "/wiki/rest/api/template" ""
    (.updateTemplate payload)

/-- Model of `internalTemplateImpl.Get`: note the source performs no emptiness check on
`templateID` before delegating to the connector. -/
def templateGet (conn : Connector) (templateID : String) :
    MethodOut ContentTemplateScheme :=
  runRequest ContentTemplateScheme.mk conn "GET"
    ("/wiki/rest/api/template/" ++ templateID) "" .none

/-! ### Concrete connectors used to instantiate the properties -/

/-- A connector whose call succeeds with the given status code. -/
def connWithCode (c : Int) : Connector :=
  { newRequest := fun _ _ _ _ => .ok ⟨0⟩,
    call := fun _ => { res := some { code := c }, err := Option.none, decoded := 7 } }

/-- A connector whose call succeeds with status 200. -/
def connOk : Connector := connWithCode 200

/-- A connector whose call fails but still yields an envelope (status 500). -/
def connErrWithRes : Connector :=
  { newRequest := fun _ _ _ _ => .ok ⟨0⟩,
    call := fun _ =>
      { res := some { code := 500 }, err := some (.connectorFailure "request failed"),
        decoded := 0 } }

/-- A connector whose request construction fails. -/
def connReqFail : Connector :=
  { newRequest := fun _ _ _ _ => .error (.connectorFailure "marshal failure"),
    call := fun _ => { res := Option.none, err := Option.none, decoded := 0 } }

/-- A method outcome consisting solely of a precondition sentinel: no typed
result, no envelope, the sentinel as the error, and no connector interaction. -/
def sentinelOnly {α : Type} (out : MethodOut α) (g : GoError) : Prop :=
  out.result = Option.none ∧ out.res = Option.none ∧ out.err = some g ∧
    out.events.countP Event.isConn = 0

/-- Variant of `sentinelOnly` for methods without a typed result. -/
def sentinelOnlyS (out : SimpleOut) (g : GoError) : Prop :=
  out.res = Option.none ∧ out.err = some g ∧
    out.events.countP Event.isConn = 0

/-! ### Theorems -/

/-- Claim C7: calling the organization-directory `Activity` operation with
`organizationID = ""` and `accountID = "ORG-1"` returns the
organization-missing sentinel, not the account-missing sentinel, with nil
result and nil envelope: the first failing check in left-to-right order wins. -/
theorem C7_first_failing_check_wins (conn : Connector) :
    (activity conn "" "ORG-1").err = some GoError.noAdminOrganization ∧
    (activity conn "" "ORG-1").err ≠ some GoError.noAdminAccountID ∧
    (activity conn "" "ORG-1").result = Option.none ∧
    (activity conn "" "ORG-1").res = Option.none := by
  refine ⟨rfl, ?_, rfl, rfl⟩
  intro h
  simp [activity] at h

/-- Claim C5: for every input and every connector behaviour, the
tracing-decorated `Activity` returns exactly the same (typed result, response
envelope, error) triple as the same method body without the tracing
decoration: the decoration never alters the returned values. -/
theorem C5_tracing_never_alters_outcome (conn : Connector)
    (organizationID accountID : String) :
    ((activity conn organizationID accountID).result,
      (activity conn organizationID accountID).res,
      (activity conn organizationID accountID).err) =
      activityPlain conn organizationID accountID := by
  by_cases h1 : organizationID = ""
  · simp [activity, activityPlain, h1]
  · by_cases h2 : accountID = ""
    · simp [activity, activityPlain, h1, h2]
    · simp only [activity, activityPlain, h1, h2, if_neg]
      cases hnr : conn.newRequest "GET" (activityEndpoint organizationID accountID) ""
          Payload.none with
      | error e => simp
      | ok req =>
        cases hce : (conn.call req).err with
        | none => cases hres : (conn.call req).res <;> simp [hce, hres]
        | some e => simp [hce]

/-- Claim C4: every tracing-decorated method (`Activity`, `Remove`, comment
`Gets`) starts a span exactly once and ends it exactly once on every exit path
(validation failure, request-build failure, call failure, success), and the
span end is the last event before returning. -/
theorem C4_span_started_and_ended_once (conn : Connector)
    (organizationID accountID contentID : String)
    (expand location : List String) (startAt maxResults : Int) :
    ((activity conn organizationID accountID).events.countP Event.isSpanStart = 1 ∧
      (activity conn organizationID accountID).events.countP Event.isSpanEnd = 1 ∧
      (activity conn organizationID accountID).events.getLast? = some Event.spanEnd) ∧
    ((remove conn organizationID accountID).events.countP Event.isSpanStart = 1 ∧
      (remove conn organizationID accountID).events.countP Event.isSpanEnd = 1 ∧
      (remove conn organizationID accountID).events.getLast? = some Event.spanEnd) ∧
    ((commentGets conn contentID expand location startAt maxResults).events.countP
        Event.isSpanStart = 1 ∧
      (commentGets conn contentID expand location startAt maxResults).events.countP
        Event.isSpanEnd = 1 ∧
      (commentGets conn contentID expand location startAt maxResults).events.getLast? =
        some Event.spanEnd) := by
  refine ⟨?_, ?_, ?_⟩
  · by_cases h1 : organizationID = ""
    · simp [activity, h1, Event.isSpanStart, Event.isSpanEnd]
    · by_cases h2 : accountID = ""
      · simp [activity, h1, h2, Event.isSpanStart, Event.isSpanEnd]
      · simp only [activity, h1, h2, if_neg]
        cases hnr : conn.newRequest "GET" (activityEndpoint organizationID accountID) ""
            Payload.none with
        | error e => simp [Event.isSpanStart, Event.isSpanEnd]
        | ok req =>
          cases hce : (conn.call req).err with
          | none =>
            cases hres : (conn.call req).res <;>
              simp [hce, hres, Event.isSpanStart, Event.isSpanEnd]
          | some e => simp [hce, Event.isSpanStart, Event.isSpanEnd]
  · by_cases h1 : organizationID = ""
    · simp [remove, h1, Event.isSpanStart, Event.isSpanEnd]
    · by_cases h2 : accountID = ""
      · simp [remove, h1, h2, Event.isSpanStart, Event.isSpanEnd]
      · simp only [remove, h1, h2, if_neg]
        cases hnr : conn.newRequest "DELETE" (removeEndpoint organizationID accountID) ""
            Payload.none with
        | error e => simp [Event.isSpanStart, Event.isSpanEnd]
        | ok req =>
          cases hce : (conn.call req).err with
          | none =>
            cases hres : (conn.call req).res <;>
              simp [hce, hres, Event.isSpanStart, Event.isSpanEnd]
          | some e => simp [hce, Event.isSpanStart, Event.isSpanEnd]
  · by_cases h1 : contentID = ""
    · simp [commentGets, h1, Event.isSpanStart, Event.isSpanEnd]
    · simp only [commentGets, h1, if_neg]
      cases hnr : conn.newRequest "GET"
          (commentGetsEndpoint contentID expand location startAt maxResults) ""
          Payload.none with
      | error e => simp [Event.isSpanStart, Event.isSpanEnd]
      | ok req =>
        cases hce : (conn.call req).err with
        | none =>
          cases hres : (conn.call req).res <;>
            simp [hce, hres, Event.isSpanStart, Event.isSpanEnd]
        | some e => simp [hce, Event.isSpanStart, Event.isSpanEnd]

/-- Claim C6: `SetSpanResponse` and the inlined response-attribute block of
the decorated methods mark the span as error, with the standard HTTP reason
phrase of the status code as the description, exactly when the status code is
at least 400, and mark it Ok otherwise; in particular 400 is classified as
error and 399 as success. -/
theorem C6_status_code_classification (sp : Span) (code c : Int) :
    ((setSpanResponse sp code).status.isError = true ↔ 400 ≤ code) ∧
    (setSpanResponse sp code).status =
      (if 400 ≤ code then SpanStatus.error (statusText code) else SpanStatus.ok "") ∧
    (setSpanResponse sp 400).status = SpanStatus.error "Bad Request" ∧
    (setSpanResponse sp 399).status = SpanStatus.ok "" ∧
    lastSetStatus (activity (connWithCode c) "org" "acct").events =
      some (if 400 ≤ c then SpanStatus.error (statusText c) else SpanStatus.ok "") := by
  refine ⟨?_, ?_, rfl, rfl, ?_⟩
  · by_cases h : 400 ≤ code <;>
      simp [setSpanResponse, h, SpanStatus.isError, GE.ge]
  · by_cases h : 400 ≤ code <;> simp [setSpanResponse, h, GE.ge]
  · simp [activity, connWithCode, lastSetStatus, GE.ge]

/-- Claim C1, counterexample: `TemplateService.Get` takes the required string
identifier `templateID`, yet calling it with the empty string does not return
a sentinel with nil result and nil envelope — it builds the request and calls
the connector (two connector interactions; with a succeeding connector the
call even succeeds). -/
theorem C1_counterexample_templateGet_skips_validation :
    (templateGet connOk "").err = Option.none ∧
    (templateGet connOk "").result = some ⟨7⟩ ∧
    (templateGet connOk "").events.countP Event.isConn = 2 := by
  exact ⟨rfl, rfl, rfl⟩

/-- Claim C1, amended: every service method that validates its required string
identifiers (`Activity`, `Remove`, `Suspend`, `Restore`, comment `Gets`,
search `Get`) returns the designated sentinel with nil result and nil envelope
and performs no connector interaction when the identifier is empty;
`TemplateService.Get` performs no such validation (see the counterexample). -/
theorem C1_empty_identifier_returns_sentinel (conn : Connector)
    (o a : String) (ho : o ≠ "") (expand location : List String)
    (startAt maxResults : Int) (version : String) (npt : Option String)
    (mr : Int) (f e p : List String) (fbk ff : Bool) (ri : List Int) :
    sentinelOnly (activity conn "" a) GoError.noAdminOrganization ∧
    sentinelOnly (activity conn o "") GoError.noAdminAccountID ∧
    sentinelOnlyS (remove conn "" a) GoError.noAdminOrganization ∧
    sentinelOnlyS (remove conn o "") GoError.noAdminAccountID ∧
    sentinelOnly (suspend conn "" a) GoError.noAdminOrganization ∧
    sentinelOnly (suspend conn o "") GoError.noAdminAccountID ∧
    sentinelOnly (restore conn "" a) GoError.noAdminOrganization ∧
    sentinelOnly (restore conn o "") GoError.noAdminAccountID ∧
    sentinelOnly (commentGets conn "" expand location startAt maxResults)
      GoError.noContentID ∧
    sentinelOnly (searchGet conn version "" npt mr f e p fbk ff ri)
      GoError.noJQL := by
  refine ⟨?_, ?_, ?_, ?_, ?_, ?_, ?_, ?_, ?_, ?_⟩ <;>
    simp [sentinelOnly, sentinelOnlyS, activity, remove, suspend, restore,
      commentGets, searchGet, ho, Event.isConn]

/-- Claim C1, witness: concrete instances of the amended statement. -/
theorem C1_empty_identifier_returns_sentinel_witness :
    sentinelOnly (activity connOk "" "ORG-1") GoError.noAdminOrganization ∧
    sentinelOnly (activity connOk "DUMMY-1" "") GoError.noAdminAccountID ∧
    sentinelOnly (commentGets connOk "" ["a"] [] 0 25) GoError.noContentID ∧
    sentinelOnly (searchGet connOk "3" "" Option.none 50 [] [] [] false false [])
      GoError.noJQL := by
  have h := C1_empty_identifier_returns_sentinel connOk "DUMMY-1" "ORG-1"
    (by decide) ["a"] [] 0 25 "3" Option.none 50 [] [] [] false false []
  exact ⟨h.1, h.2.1, h.2.2.2.2.2.2.2.2.1, h.2.2.2.2.2.2.2.2.2⟩

/-- Outcome of `runRequest` when request construction fails. -/
theorem runRequest_newRequest_error {α : Type} (mk : Nat → α) (conn : Connector)
    (mtd ep ct : String) (payload : Payload) (er : GoError)
    (h : conn.newRequest mtd ep ct payload = .error er) :
    runRequest mk conn mtd ep ct payload =
      { result := Option.none, res := Option.none, err := some er,
        events := [Event.connNewRequest mtd ep ct payload] } := by
  simp [runRequest, h]

/-- Outcome of `runRequest` when the call fails. -/
theorem runRequest_call_error {α : Type} (mk : Nat → α) (conn : Connector)
    (mtd ep ct : String) (payload : Payload) (er : GoError)
    (req : RequestDescriptor) (h1 : conn.newRequest mtd ep ct payload = .ok req)
    (h2 : (conn.call req).err = some er) :
    runRequest mk conn mtd ep ct payload =
      { result := Option.none, res := (conn.call req).res, err := some er,
        events := [Event.connNewRequest mtd ep ct payload, Event.connCall req] } := by
  simp [runRequest, h1, h2]

/-- Outcome of `runRequest` when both connector steps succeed. -/
theorem runRequest_call_ok {α : Type} (mk : Nat → α) (conn : Connector)
    (mtd ep ct : String) (payload : Payload) (req : RequestDescriptor)
    (h1 : conn.newRequest mtd ep ct payload = .ok req)
    (h2 : (conn.call req).err = Option.none) :
    runRequest mk conn mtd ep ct payload =
      { result := some (mk (conn.call req).decoded), res := (conn.call req).res,
        err := Option.none,
        events := [Event.connNewRequest mtd ep ct payload, Event.connCall req] } := by
  simp [runRequest, h1, h2]

/-- The error of a `runRequest` outcome is absent exactly when the typed
result is present. -/
theorem runRequest_err_iff_result {α : Type} (mk : Nat → α) (conn : Connector)
    (mtd ep ct : String) (payload : Payload) :
    (runRequest mk conn mtd ep ct payload).err = Option.none ↔
      ((runRequest mk conn mtd ep ct payload).result).isSome = true := by
  cases h1 : conn.newRequest mtd ep ct payload with
  | error er => rw [runRequest_newRequest_error mk conn mtd ep ct payload er h1]; simp
  | ok req =>
    cases h2 : (conn.call req).err with
    | none => rw [runRequest_call_ok mk conn mtd ep ct payload req h1 h2]; simp
    | some er => rw [runRequest_call_error mk conn mtd ep ct payload er req h1 h2]; simp

/-- The error of the decorated `Activity` is absent exactly when the typed
result is present. -/
theorem activity_err_iff_result (conn : Connector) (o a : String) :
    (activity conn o a).err = Option.none ↔
      ((activity conn o a).result).isSome = true := by
  by_cases h1 : o = ""
  · simp [activity, h1]
  · by_cases h2 : a = ""
    · simp [activity, h1, h2]
    · simp only [activity, h1, h2, if_neg]
      cases hnr : conn.newRequest "GET" (activityEndpoint o a) "" Payload.none with
      | error e => simp
      | ok req =>
        cases hce : (conn.call req).err with
        | none => cases hres : (conn.call req).res <;> simp [hce, hres]
        | some e => simp [hce]

/-- The error of the decorated comment `Gets` is absent exactly when the typed
result is present. -/
theorem commentGets_err_iff_result (conn : Connector) (cid : String)
    (expand location : List String) (startAt maxResults : Int) :
    (commentGets conn cid expand location startAt maxResults).err = Option.none ↔
      ((commentGets conn cid expand location startAt maxResults).result).isSome = true := by
  by_cases h1 : cid = ""
  · simp [commentGets, h1]
  · simp only [commentGets, h1, if_neg]
    cases hnr : conn.newRequest "GET"
        (commentGetsEndpoint cid expand location startAt maxResults) "" Payload.none with
    | error e => simp
    | ok req =>
      cases hce : (conn.call req).err with
      | none => cases hres : (conn.call req).res <;> simp [hce, hres]
      | some e => simp [hce]

/-- Claim C2: for every modelled service method and every connector behaviour,
exactly one of the two outcomes holds — error nil with the typed result being
the freshly decoded schema, or error non-nil with the typed result nil — and
the envelope may be non-nil even in the error case (witnessed by a connector
that fails with a status-500 envelope). -/
theorem C2_exactly_one_outcome (conn : Connector)
    (o a cid tid version jql : String) (expand location : List String)
    (startAt maxResults : Int) (npt : Option String) (mr : Int)
    (f e p : List String) (fbk ff : Bool) (ri : List Int) (pl : Option Nat)
    {α : Type} (mk : Nat → α) (mtd ep ct : String) (payload : Payload)
    (req : RequestDescriptor) :
    ((activity conn o a).err = Option.none ↔
      ((activity conn o a).result).isSome = true) ∧
    ((suspend conn o a).err = Option.none ↔
      ((suspend conn o a).result).isSome = true) ∧
    ((restore conn o a).err = Option.none ↔
      ((restore conn o a).result).isSome = true) ∧
    ((commentGets conn cid expand location startAt maxResults).err = Option.none ↔
      ((commentGets conn cid expand location startAt maxResults).result).isSome = true) ∧
    ((searchGet conn version jql npt mr f e p fbk ff ri).err = Option.none ↔
      ((searchGet conn version jql npt mr f e p fbk ff ri).result).isSome = true) ∧
    ((searchChecks conn version pl).err = Option.none ↔
      ((searchChecks conn version pl).result).isSome = true) ∧
    ((searchPost conn version jql npt mr f e p fbk ff ri).err = Option.none ↔
      ((searchPost conn version jql npt mr f e p fbk ff ri).result).isSome = true) ∧
    ((templateCreate conn pl).err = Option.none ↔
      ((templateCreate conn pl).result).isSome = true) ∧
    ((templateUpdate conn pl).err = Option.none ↔
      ((templateUpdate conn pl).result).isSome = true) ∧
    ((templateGet conn tid).err = Option.none ↔
      ((templateGet conn tid).result).isSome = true) ∧
    (conn.newRequest mtd ep ct payload = .ok req →
      (conn.call req).err = Option.none →
      runRequest mk conn mtd ep ct payload =
        { result := some (mk (conn.call req).decoded), res := (conn.call req).res,
          err := Option.none,
          events := [Event.connNewRequest mtd ep ct payload, Event.connCall req] }) ∧
    ((activity connErrWithRes "org" "acct").err ≠ Option.none ∧
      (activity connErrWithRes "org" "acct").res = some { code := 500 }) := by
  refine ⟨activity_err_iff_result conn o a, ?_, ?_,
    commentGets_err_iff_result conn cid expand location startAt maxResults,
    ?_, ?_, ?_, ?_, ?_, ?_,
    fun h1 h2 => runRequest_call_ok mk conn mtd ep ct payload req h1 h2,
    by simp [activity, connErrWithRes], by simp [activity, connErrWithRes]⟩
  · by_cases h1 : o = ""
    · simp [suspend, h1]
    · by_cases h2 : a = ""
      · simp [suspend, h1, h2]
      · simp [suspend, h1, h2, runRequest_err_iff_result]
  · by_cases h1 : o = ""
    · simp [restore, h1]
    · by_cases h2 : a = ""
      · simp [restore, h1, h2]
      · simp [restore, h1, h2, runRequest_err_iff_result]
  · by_cases h1 : jql = ""
    · simp [searchGet, h1]
    · simp [searchGet, h1, runRequest_err_iff_result]
  · exact runRequest_err_iff_result _ conn _ _ _ _
  · by_cases h1 : jql = ""
    · simp [searchPost, runRequest_err_iff_result]
    · simp [searchPost, runRequest_err_iff_result]
  · exact runRequest_err_iff_result _ conn _ _ _ _
  · exact runRequest_err_iff_result _ conn _ _ _ _
  · exact runRequest_err_iff_result _ conn _ _ _ _

/-- Claim C2, witness: the success-path instantiation at a concrete connector. -/
theorem C2_exactly_one_outcome_witness :
    ((activity connOk "org" "acct").err = Option.none ↔
      ((activity connOk "org" "acct").result).isSome = true) ∧
    runRequest UserProductAccessScheme.mk connOk "GET" "some/endpoint" ""
        Payload.none =
      { result := some ⟨7⟩, res := some { code := 200 }, err := Option.none,
        events := [Event.connNewRequest "GET" "some/endpoint" "" Payload.none,
          Event.connCall ⟨0⟩] } := by
  have h := C2_exactly_one_outcome connOk "org" "acct" "cid" "tid" "3" "jql"
    [] [] 0 25 Option.none 50 [] [] [] false false [] Option.none
    UserProductAccessScheme.mk "GET" "some/endpoint" "" Payload.none ⟨0⟩
  exact ⟨h.1, h.2.2.2.2.2.2.2.2.2.2.1 rfl rfl⟩

/-- Claim C3: every error returned by `Connector.NewRequest` or
`Connector.Call` is propagated as the identical error value (no wrapping, no
retry, no translation), together with exactly the envelope `Call` returned —
and a nil envelope when `NewRequest` failed.  Stated for the shared
undecorated body (`runRequest`, used by `Suspend`, `Restore`, the search
methods and the template methods) and for the decorated `Activity` and comment
`Gets`. -/
theorem C3_connector_errors_propagated_unchanged (conn : Connector)
    {α : Type} (mk : Nat → α) (mtd ep ct : String) (payload : Payload)
    (er : GoError) (req : RequestDescriptor) (o a cid : String)
    (ho : o ≠ "") (ha : a ≠ "") (hc : cid ≠ "")
    (expand location : List String) (startAt maxResults : Int) :
    (conn.newRequest mtd ep ct payload = .error er →
      runRequest mk conn mtd ep ct payload =
        { result := Option.none, res := Option.none, err := some er,
          events := [Event.connNewRequest mtd ep ct payload] }) ∧
    (conn.newRequest mtd ep ct payload = .ok req →
      (conn.call req).err = some er →
      (runRequest mk conn mtd ep ct payload).err = some er ∧
      (runRequest mk conn mtd ep ct payload).res = (conn.call req).res ∧
      (runRequest mk conn mtd ep ct payload).result = Option.none) ∧
    (conn.newRequest "GET" (activityEndpoint o a) "" Payload.none = .error er →
      (activity conn o a).err = some er ∧
      (activity conn o a).res = Option.none ∧
      (activity conn o a).result = Option.none) ∧
    (∀ req2, conn.newRequest "GET" (activityEndpoint o a) "" Payload.none = .ok req2 →
      (conn.call req2).err = some er →
      (activity conn o a).err = some er ∧
      (activity conn o a).res = (conn.call req2).res ∧
      (activity conn o a).result = Option.none) ∧
    (conn.newRequest "GET"
        (commentGetsEndpoint cid expand location startAt maxResults) ""
        Payload.none = .error er →
      (commentGets conn cid expand location startAt maxResults).err = some er ∧
      (commentGets conn cid expand location startAt maxResults).res = Option.none) ∧
    (∀ req2, conn.newRequest "GET"
        (commentGetsEndpoint cid expand location startAt maxResults) ""
        Payload.none = .ok req2 →
      (conn.call req2).err = some er →
      (commentGets conn cid expand location startAt maxResults).err = some er ∧
      (commentGets conn cid expand location startAt maxResults).res =
        (conn.call req2).res) := by
  refine ⟨fun h => runRequest_newRequest_error mk conn mtd ep ct payload er h,
    fun h1 h2 => by rw [runRequest_call_error mk conn mtd ep ct payload er req h1 h2]
                    exact ⟨rfl, rfl, rfl⟩,
    ?_, ?_, ?_, ?_⟩
  · intro h
    simp [activity, ho, ha, h]
  · intro req2 h1 h2
    simp [activity, ho, ha, h1, h2]
  · intro h
    simp [commentGets, hc, h]
  · intro req2 h1 h2
    simp [commentGets, hc, h1, h2]

/-- Claim C3, witness: propagation at concrete failing connectors — a
request-construction failure yields the identical error with nil envelope; a
call failure yields the identical error with the status-500 envelope the
connector returned. -/
theorem C3_connector_errors_propagated_unchanged_witness :
    runRequest GenericActionSuccessScheme.mk connReqFail "POST" "some/endpoint" ""
        Payload.none =
      { result := Option.none, res := Option.none,
        err := some (GoError.connectorFailure "marshal failure"),
        events := [Event.connNewRequest "POST" "some/endpoint" "" Payload.none] } ∧
    (activity connErrWithRes "org" "acct").err =
      some (GoError.connectorFailure "request failed") ∧
    (activity connErrWithRes "org" "acct").res = some { code := 500 } := by
  have h1 := C3_connector_errors_propagated_unchanged connReqFail
    GenericActionSuccessScheme.mk "POST" "some/endpoint" "" Payload.none
    (GoError.connectorFailure "marshal failure") ⟨0⟩ "org" "acct" "cid"
    (by decide) (by decide) (by decide) [] [] 0 25
  have h2 := C3_connector_errors_propagated_unchanged connErrWithRes
    GenericActionSuccessScheme.mk "POST" "some/endpoint" "" Payload.none
    (GoError.connectorFailure "request failed") ⟨0⟩ "org" "acct" "cid"
    (by decide) (by decide) (by decide) [] [] 0 25
  have h3 := h2.2.2.2.1 ⟨0⟩ rfl rfl
  exact ⟨h1.1 rfl, h3.1, h3.2.1⟩

/-- The first event of the shared undecorated body is always the `NewRequest`
invocation. -/
theorem runRequest_head_newRequest {α : Type} (mk : Nat → α) (conn : Connector)
    (mtd ep ct : String) (payload : Payload) :
    ((runRequest mk conn mtd ep ct payload).events).head? =
      some (Event.connNewRequest mtd ep ct payload) := by
  cases h1 : conn.newRequest mtd ep ct payload with
  | error er =>
    rw [runRequest_newRequest_error mk conn mtd ep ct payload er h1]
    rfl
  | ok req =>
    cases h2 : (conn.call req).err with
    | none =>
      rw [runRequest_call_ok mk conn mtd ep ct payload req h1 h2]
      rfl
    | some er =>
      rw [runRequest_call_error mk conn mtd ep ct payload er req h1 h2]
      rfl

/-- The error of the shared undecorated body after a successful `NewRequest`
is exactly the error of `Call`. -/
theorem runRequest_err_after_ok {α : Type} (mk : Nat → α) (conn : Connector)
    (mtd ep ct : String) (payload : Payload) (req : RequestDescriptor)
    (h1 : conn.newRequest mtd ep ct payload = .ok req) :
    (runRequest mk conn mtd ep ct payload).err = (conn.call req).err := by
  cases h2 : (conn.call req).err with
  | none => rw [runRequest_call_ok mk conn mtd ep ct payload req h1 h2]
  | some er => rw [runRequest_call_error mk conn mtd ep ct payload er req h1 h2]

/-- Claim C10: the service methods that take only a payload pointer
(`SearchADFService.Checks`, `TemplateService.Create`, `TemplateService.Update`)
perform no precondition validation: for every payload value, including nil,
`NewRequest` is always attempted (it is the first event), and the returned
error is exactly what the connector produced — never a sentinel of the
method's own making. -/
theorem C10_payload_methods_never_validate (conn : Connector) (version : String)
    (pl : Option Nat) (er : GoError) (req : RequestDescriptor) :
    ((searchChecks conn version pl).events.head? =
      some (Event.connNewRequest "POST" ("rest/api/" ++ version ++ "/jql/match")
        "" (Payload.issueSearchCheck pl))) ∧
    (conn.newRequest "POST" ("rest/api/" ++ version ++ "/jql/match") ""
        (Payload.issueSearchCheck pl) = .error er →
      (searchChecks conn version pl).err = some er) ∧
    (conn.newRequest "POST" ("rest/api/" ++ version ++ "/jql/match") ""
        (Payload.issueSearchCheck pl) = .ok req →
      (searchChecks conn version pl).err = (conn.call req).err) ∧
    ((templateCreate conn pl).events.head? =
      some (Event.connNewRequest "POST" "/wiki/rest/api/template" ""
        (Payload.createTemplate pl))) ∧
    (conn.newRequest "POST" "/wiki/rest/api/template" ""
        (Payload.createTemplate pl) = .error er →
      (templateCreate conn pl).err = some er) ∧
    (conn.newRequest "POST" "/wiki/rest/api/template" ""
        (Payload.createTemplate pl) = .ok req →
      (templateCreate conn pl).err = (conn.call req).err) ∧
    ((templateUpdate conn pl).events.head? =
      some (Event.connNewRequest "PUT" "/wiki/rest/api/template" ""
        (Payload.updateTemplate pl))) ∧
    (conn.newRequest "PUT" "/wiki/rest/api/template" ""
        (Payload.updateTemplate pl) = .error er →
      (templateUpdate conn pl).err = some er) ∧
    (conn.newRequest "PUT" "/wiki/rest/api/template" ""
        (Payload.updateTemplate pl) = .ok req →
      (templateUpdate conn pl).err = (conn.call req).err) := by
  refine ⟨runRequest_head_newRequest _ conn _ _ _ _,
    fun h => by rw [searchChecks, runRequest_newRequest_error _ conn _ _ _ _ er h],
    fun h => runRequest_err_after_ok _ conn _ _ _ _ _ h,
    runRequest_head_newRequest _ conn _ _ _ _,
    fun h => by rw [templateCreate, runRequest_newRequest_error _ conn _ _ _ _ er h],
    fun h => runRequest_err_after_ok _ conn _ _ _ _ _ h,
    runRequest_head_newRequest _ conn _ _ _ _,
    fun h => by rw [templateUpdate, runRequest_newRequest_error _ conn _ _ _ _ er h],
    fun h => runRequest_err_after_ok _ conn _ _ _ _ _ h⟩

/-- Claim C10, witness: concrete instances — with a nil payload and a failing
request builder, `Checks` surfaces the builder's error; with a succeeding
connector, `Create` with a nil payload succeeds (no sentinel). -/
theorem C10_payload_methods_never_validate_witness :
    (searchChecks connReqFail "2" Option.none).err =
      some (GoError.connectorFailure "marshal failure") ∧
    (templateCreate connOk Option.none).err = Option.none := by
  have h1 := C10_payload_methods_never_validate connReqFail "2" Option.none
    (GoError.connectorFailure "marshal failure") ⟨0⟩
  have h2 := C10_payload_methods_never_validate connOk "2" Option.none
    (GoError.connectorFailure "marshal failure") ⟨0⟩
  exact ⟨by rw [h1.2.1 rfl], h2.2.2.2.2.2.1 rfl⟩

/-- Reading a key after `Add`: the added value is appended to that key's
value list; other keys are unaffected. -/
theorem valuesGet_valuesAdd (v : Values) (k k2 val : String) :
    valuesGet (valuesAdd v k val) k2 =
      if k = k2 then valuesGet v k2 ++ [val] else valuesGet v k2 := by
  induction v with
  | nil =>
    by_cases h : k = k2 <;> simp [valuesAdd, valuesGet, h]
  | cons hd tl ih =>
    obtain ⟨hk, hvs⟩ := hd
    by_cases h1 : hk = k
    · subst h1
      by_cases h2 : hk = k2 <;> simp [valuesAdd, valuesGet, h2]
    · by_cases h2 : hk = k2
      · subst h2
        have hkk : ¬ k = hk := fun hcon => h1 hcon.symm
        simp [valuesAdd, valuesGet, h1, hkk]
      · simp [valuesAdd, valuesGet, h1, h2, ih]

/-- Claim C8, counterexample: comment `Gets` with `expand = ["x","y"]` builds
an endpoint whose query string does not contain the elements joined by a
literal comma — the comma is percent-encoded by `url.Values.Encode`. -/
theorem C8_counterexample_comma_is_percent_encoded :
    strContainsSub (commentGetsEndpoint "555" ["x","y"] ["p","q"] 3 7) "x,y"
      = false ∧
    strContainsSub (commentGetsEndpoint "555" ["x","y"] ["p","q"] 3 7)
      "expand=x%2Cy" = true := by
  exact ⟨rfl, rfl⟩

/-- Claim C8, amended: a supplied non-empty multi-value parameter is joined by
commas in caller-supplied order (no de-duplication, no sorting of elements)
into a single value, which appears percent-encoded (comma as `%2C`) as that
key's piece of the query string, the keys being emitted in `Encode`'s sorted
order; a nil or empty slice leaves the key entirely absent.  Stated as the
exact piece list of the comment `Gets` query and as the stored values of the
search `Get` query. -/
theorem C8_multivalue_params_comma_joined (expand location : List String)
    (startAt maxResults : Int) (jql : String) (npt : Option String)
    (mr : Int) (f e p : List String) (fbk ff : Bool) (ri : List Int) :
    encodePieces (commentGetsQuery expand location startAt maxResults) =
      (if expand = [] then [] else
        ["expand=" ++ queryEscape (String.intercalate "," expand)]) ++
      ["limit=" ++ queryEscape (toString maxResults)] ++
      (if location = [] then [] else
        ["location=" ++ queryEscape (String.intercalate "," location)]) ++
      ["start=" ++ queryEscape (toString startAt)] ∧
    valuesGet (searchGetValues jql npt mr f e p fbk ff ri) "expand" =
      (if e = [] then [] else [String.intercalate "," e]) ∧
    valuesGet (searchGetValues jql npt mr f e p fbk ff ri) "fields" =
      (if f = [] then [] else [String.intercalate "," f]) ∧
    valuesGet (searchGetValues jql npt mr f e p fbk ff ri) "properties" =
      (if p = [] then [] else [String.intercalate "," p]) := by
  refine ⟨?_, ?_, ?_, ?_⟩
  · cases expand <;> cases location <;> rfl
  · cases npt <;> cases f <;> cases e <;> cases p <;> cases ri <;> rfl
  · cases npt <;> cases f <;> cases e <;> cases p <;> cases ri <;> rfl
  · cases npt <;> cases f <;> cases e <;> cases p <;> cases ri <;> rfl

/-- Claim C9, counterexample: comment `Gets` with `startAt = 0`,
`maxResults = 25`, `expand = ["a","b"]` builds an endpoint that does not
contain the substring `start=0&limit=25&expand=a,b`: `url.Values.Encode`
orders the keys alphabetically and percent-encodes the comma, producing
`expand=a%2Cb&limit=25&start=0`. -/
theorem C9_counterexample_query_string_shape :
    strContainsSub (commentGetsEndpoint "100200300" ["a","b"] [] 0 25)
      "start=0&limit=25&expand=a,b" = false ∧
    commentGetsEndpoint "100200300" ["a","b"] [] 0 25 =
      "wiki/rest/api/content/100200300/child/comment?expand=a%2Cb&limit=25&start=0" := by
  exact ⟨rfl, rfl⟩

/-- Claim C9, amended: comment `Gets` with a non-empty `contentID`,
`startAt = 0`, `maxResults = 25` and `expand = ["a","b"]` builds an endpoint
whose query string is exactly `expand=a%2Cb&limit=25&start=0` (keys in
`Encode`'s alphabetical order, the comma percent-encoded, pagination keys
present even when zero), and passes that endpoint to `Connector.NewRequest`
exactly once. -/
theorem C9_paginated_gets_query_string (conn : Connector) (cid : String)
    (hc : cid ≠ "") :
    commentGetsEndpoint cid ["a","b"] [] 0 25 =
      "wiki/rest/api/content/" ++ cid ++ "/child/comment?" ++
        "expand=a%2Cb&limit=25&start=0" ∧
    Event.connNewRequest "GET" (commentGetsEndpoint cid ["a","b"] [] 0 25) ""
        Payload.none ∈ (commentGets conn cid ["a","b"] [] 0 25).events ∧
    (commentGets conn cid ["a","b"] [] 0 25).events.countP
        Event.isNewRequestEv = 1 := by
  have henc : valuesEncode (commentGetsQuery ["a","b"] [] 0 25) =
      "expand=a%2Cb&limit=25&start=0" := rfl
  refine ⟨by simp only [commentGetsEndpoint, henc], ?_, ?_⟩
  · simp only [commentGets, hc, if_neg]
    cases hnr : conn.newRequest "GET" (commentGetsEndpoint cid ["a","b"] [] 0 25)
        "" Payload.none with
    | error e => simp
    | ok req =>
      cases hce : (conn.call req).err with
      | none => cases hres : (conn.call req).res <;> simp [hce, hres]
      | some e => simp [hce]
  · simp only [commentGets, hc, if_neg]
    cases hnr : conn.newRequest "GET" (commentGetsEndpoint cid ["a","b"] [] 0 25)
        "" Payload.none with
    | error e => simp [Event.isNewRequestEv]
    | ok req =>
      cases hce : (conn.call req).err with
      | none =>
        cases hres : (conn.call req).res <;> simp [hce, hres, Event.isNewRequestEv]
      | some e => simp [hce, Event.isNewRequestEv]

/-- Claim C9, witness: the amended statement at a concrete content id and
connector. -/
theorem C9_paginated_gets_query_string_witness :
    commentGetsEndpoint "100200300" ["a","b"] [] 0 25 =
      "wiki/rest/api/content/" ++ "100200300" ++ "/child/comment?" ++
        "expand=a%2Cb&limit=25&start=0" ∧
    Event.connNewRequest "GET" (commentGetsEndpoint "100200300" ["a","b"] [] 0 25)
        "" Payload.none ∈ (commentGets connOk "100200300" ["a","b"] [] 0 25).events ∧
    (commentGets connOk "100200300" ["a","b"] [] 0 25).events.countP
        Event.isNewRequestEv = 1 :=
  C9_paginated_gets_query_string connOk "100200300" (by decide)

end GoAtlassian
